import Mathlib

/-!
Shallow embedding of the text-reconstruction pipeline of
`extrator_decisoes.py` (TJCE decision extractor): line classification
(header/footer boilerplate), paragraph reflow (`merge_lines`), section-title
normalization (`normalize_paragraphs`), case-number extraction
(`extrair_numero_processo`) and the per-document pipeline
(`extrair_info_pdf`).

Strings are modelled as `List Char`.  The regular expressions of the source
are compiled by hand into deterministic matchers; each matcher's doc comment
names the source pattern it embeds.  Case-insensitive matching (`re.IGNORECASE`)
is modelled by the case-folding function `lc`, which covers ASCII letters and
the accented letters occurring in the source's patterns.
-/

/-- Whitespace characters of Python's `str.strip()` / regex `\s`
(ASCII subset: space, tab, newline, carriage return, vertical tab, form feed). -/
def isPySpace (c : Char) : Bool :=
  c = ' ' || c = '\t' || c = '\n' || c = '\r' || c = '\x0b' || c = '\x0c'

/-- Case folding used to model `re.IGNORECASE`: ASCII upper-case letters and
the accented upper-case letters appearing in the source's patterns are mapped
to lower case; every other character is fixed. -/
def lc (c : Char) : Char :=
  if 'A' ≤ c ∧ c ≤ 'Z' then Char.ofNat (c.toNat + 32)
  else if c = 'Á' then 'á' else if c = 'É' then 'é' else if c = 'Í' then 'í'
  else if c = 'Ó' then 'ó' else if c = 'Ú' then 'ú' else if c = 'Â' then 'â'
  else if c = 'Ê' then 'ê' else if c = 'Ô' then 'ô' else if c = 'Ã' then 'ã'
  else if c = 'Õ' then 'õ' else if c = 'Ç' then 'ç' else if c = 'À' then 'à'
  else if c = 'Ü' then 'ü' else c

/-- Lower-case cased characters of the modelled alphabet
(Python `str.islower` on one character, for the characters we model). -/
def isLowerCh (c : Char) : Bool :=
  ('a' ≤ c ∧ c ≤ 'z' : Bool) || c = 'á' || c = 'é' || c = 'í' || c = 'ó' ||
  c = 'ú' || c = 'â' || c = 'ê' || c = 'ô' || c = 'ã' || c = 'õ' ||
  c = 'ç' || c = 'à' || c = 'ü'

/-- Upper-case cased characters of the modelled alphabet. -/
def isUpperCh (c : Char) : Bool :=
  ('A' ≤ c ∧ c ≤ 'Z' : Bool) || c = 'Á' || c = 'É' || c = 'Í' || c = 'Ó' ||
  c = 'Ú' || c = 'Â' || c = 'Ê' || c = 'Ô' || c = 'Ã' || c = 'Õ' ||
  c = 'Ç' || c = 'À' || c = 'Ü'

/-- Cased character (has an upper/lower case distinction).  Digits and
punctuation are not cased; this is what makes Python's `str.isupper` return
`False` on strings with no cased character. -/
def isCased (c : Char) : Bool := isLowerCh c || isUpperCh c

/-- Python `str.isupper()`: at least one cased character and no lower-case
cased character. -/
def pyIsUpper (cs : List Char) : Bool :=
  cs.any isCased && cs.all (fun c => !isLowerCh c)

/-- Regex `\d`: a decimal digit (ASCII `0`-`9` in the modelled alphabet). -/
def regexDigit (c : Char) : Bool := c.isDigit

/-- Python `str.isdigit()` on one character.  This is strictly wider than the
decimal-digit class: Python documents that `isdigit` also accepts
"digits that need special handling, such as the compatibility superscript
digits" (Unicode `Numeric_Type=Digit`), e.g. `'¹'`, `'²'`, `'³'`, which are
*not* matched by the regex class `\d`. -/
def pyIsDigitChar (c : Char) : Bool :=
  c.isDigit || c = '¹' || c = '²' || c = '³'

/-- Regex word character (`\b` complement class): alphanumeric, underscore,
or an accented letter of the modelled alphabet. -/
def isWordChar (c : Char) : Bool :=
  c.isAlphanum || c = '_' || isLowerCh c || isUpperCh c

/-- Drop trailing `isPySpace` characters (right half of Python `str.strip()`). -/
def stripR : List Char → List Char
  | [] => []
  | c :: cs =>
    let r := stripR cs
    if r.isEmpty then (if isPySpace c then [] else [c]) else c :: r

/-- Python `str.strip()`: drop leading and trailing whitespace. -/
def strip (cs : List Char) : List Char := stripR (cs.dropWhile isPySpace)

/-- Python `str.splitlines()` restricted to the line boundaries `\n`, `\r`
and `\r\n` (the boundaries that occur in extracted PDF text); no trailing
empty line is produced. -/
def splitlinesGo : List Char → List Char → List (List Char)
  | [], acc => [acc.reverse]
  | '\r' :: '\n' :: rest, acc =>
    acc.reverse :: (if rest.isEmpty then [] else splitlinesGo rest [])
  | c :: rest, acc =>
    if c = '\n' || c = '\r' then
      acc.reverse :: (if rest.isEmpty then [] else splitlinesGo rest [])
    else splitlinesGo rest (c :: acc)

/-- Python `str.splitlines()` (empty string yields the empty list). -/
def splitlines (cs : List Char) : List (List Char) :=
  if cs.isEmpty then [] else splitlinesGo cs []

/-- Case-insensitive literal prefix match, returning the remainder of the
input after the pattern, or `none`.  Used to embed the literal parts of the
source's `re.IGNORECASE` patterns. -/
def ciPrefixR : List Char → List Char → Option (List Char)
  | [], cs => some cs
  | _ :: _, [] => none
  | p :: ps, c :: cs => if lc c = lc p then ciPrefixR ps cs else none

/-- Exactly `n` regex decimal digits (`\d{n}`), returning the digits consumed
and the remainder. -/
def exactDigits : Nat → List Char → Option (List Char × List Char)
  | 0, cs => some ([], cs)
  | _ + 1, [] => none
  | n + 1, c :: cs =>
    if regexDigit c then (exactDigits n cs).map (fun p => (c :: p.1, p.2))
    else none

/-- One literal character, returning the remainder. -/
def litChar (ch : Char) : List Char → Option (List Char)
  | [] => none
  | c :: cs => if c = ch then some cs else none

-- -------------------------------------------------
-- Header and footer boilerplate patterns
-- -------------------------------------------------

/-- Header pattern `^PODER JUDICI[ÁA]RIO` (IGNORECASE). -/
def pPoder (s : List Char) : Bool :=
  match ciPrefixR "poder judici".data s with
  | some (c :: r) => (lc c = 'á' || lc c = 'a') && (ciPrefixR "rio".data r).isSome
  | _ => false

/-- Header pattern `^Comarca de` (IGNORECASE). -/
def pComarca (s : List Char) : Bool := (ciPrefixR "comarca de".data s).isSome

/-- Header pattern `^Vara ` (IGNORECASE; note the trailing space). -/
def pVara (s : List Char) : Bool := (ciPrefixR "vara ".data s).isSome

/-- Header pattern `^F[oó]rum` (IGNORECASE). -/
def pForum (s : List Char) : Bool :=
  match ciPrefixR "f".data s with
  | some (c :: r) => (lc c = 'ó' || lc c = 'o') && (ciPrefixR "rum".data r).isSome
  | _ => false

/-- `CEP:\s*\d{5}-\d{3}` matched at the head of the input. -/
def cepAt (s : List Char) : Bool :=
  match ciPrefixR "cep:".data s with
  | some r =>
    (match exactDigits 5 (r.dropWhile isPySpace) with
     | some (_, r2) =>
       (match litChar '-' r2 with
        | some r3 => (exactDigits 3 r3).isSome
        | none => false)
     | none => false)
  | none => false

/-- Header pattern `CEP:\s*\d{5}-\d{3}` (IGNORECASE), *unanchored*: matched
anywhere in the line (`re.search` with no `^`). -/
def pCEP : List Char → Bool
  | [] => false
  | c :: rest => cepAt (c :: rest) || pCEP rest

/-- Header pattern `^\s*Tel` (IGNORECASE). -/
def pTel (s : List Char) : Bool :=
  (ciPrefixR "tel".data (s.dropWhile isPySpace)).isSome

/-- Header pattern `^\s*Email` (IGNORECASE). -/
def pEmail (s : List Char) : Bool :=
  (ciPrefixR "email".data (s.dropWhile isPySpace)).isSome

/-- The source's `is_header_line`: strip the line; an empty stripped line is
not a header; otherwise any of the seven `HEADER_PATTERNS` matches. -/
def is_header_line (raw : List Char) : Bool :=
  let s := strip raw
  !s.isEmpty &&
    (pPoder s || pComarca s || pVara s || pForum s || pCEP s || pTel s || pEmail s)

/-- Footer pattern `^Este documento é cópia do original` (IGNORECASE). -/
def fEste (s : List Char) : Bool :=
  (ciPrefixR "este documento é cópia do original".data s).isSome

/-- Footer pattern `^Para conferir o original` (IGNORECASE). -/
def fPara (s : List Char) : Bool :=
  (ciPrefixR "para conferir o original".data s).isSome

/-- Footer pattern `^Documento eletrônico assinado por` (IGNORECASE). -/
def fDoc (s : List Char) : Bool :=
  (ciPrefixR "documento eletrônico assinado por".data s).isSome

/-- Footer pattern `^fls\.\s*\d+` (IGNORECASE). -/
def fFls (s : List Char) : Bool :=
  match ciPrefixR "fls.".data s with
  | some r =>
    (match r.dropWhile isPySpace with
     | c :: _ => regexDigit c
     | [] => false)
  | none => false

/-- The source's `is_footer_line`: strip the line; an empty stripped line is
not a footer; otherwise any of the four `FOOTER_PATTERNS` matches. -/
def is_footer_line (raw : List Char) : Bool :=
  let s := strip raw
  !s.isEmpty && (fEste s || fPara s || fDoc s || fFls s)

-- -------------------------------------------------
-- Paragraph reflow (`merge_lines`)
-- -------------------------------------------------

/-- The source's `re.search(r"[.!?;:]$", buffer)`: the buffer's trailing
character is terminal punctuation.  (Buffers never end in a newline, so the
`$` anchor reduces to a last-character test.) -/
def endsSentence (cs : List Char) : Bool :=
  match cs.getLast? with
  | some c => c = '.' || c = '!' || c = '?' || c = ';' || c = ':'
  | none => false

/-- Word-boundary `\b` immediately after a word character: satisfied at end
of input or before a non-word character. -/
def boundaryOk : List Char → Bool
  | [] => true
  | c :: _ => !isWordChar c

/-- Tail of `sec_pattern` after the digits-and-dot prefix:
`(RELAT[ÓO]RIO|FUNDAMENTA[ÇC][ÃA]O|DISPOSITIVO)\b` (IGNORECASE), applied
after `\s*` has been consumed. -/
def secName (s : List Char) : Bool :=
  (match ciPrefixR "relat".data s with
   | some (c :: r) =>
     (lc c = 'ó' || lc c = 'o') &&
       (match ciPrefixR "rio".data r with
        | some r2 => boundaryOk r2
        | none => false)
   | _ => false) ||
  (match ciPrefixR "fundamenta".data s with
   | some (c1 :: c2 :: r) =>
     (lc c1 = 'ç' || lc c1 = 'c') && (lc c2 = 'ã' || lc c2 = 'a') &&
       (match ciPrefixR "o".data r with
        | some r2 => boundaryOk r2
        | none => false)
   | _ => false) ||
  (match ciPrefixR "dispositivo".data s with
   | some r2 => boundaryOk r2
   | none => false)

/-- The source's `sec_pattern.match(line)`:
`^\d+\.\s*(RELAT[ÓO]RIO|FUNDAMENTA[ÇC][ÃA]O|DISPOSITIVO)\b` (IGNORECASE),
anchored at the start of the line. -/
def secMatch (cs : List Char) : Bool :=
  let ds := cs.takeWhile regexDigit
  let rest := cs.dropWhile regexDigit
  !ds.isEmpty &&
    (match rest with
     | '.' :: r => secName (r.dropWhile isPySpace)
     | _ => false)

/-- Loop body of the source's `merge_lines`, with the paragraph accumulator
`buffer` as explicit state; returns the paragraphs still to be emitted.
Mirrors, in order: the blank-line flush, the section-heading/all-caps hard
break, the empty-buffer seed, the trailing-punctuation flush, and the
single-space join. -/
def merge_lines_go : List (List Char) → List Char → List (List Char)
  | [], buf => if buf.isEmpty then [] else [strip buf]
  | raw :: rest, buf =>
    let line := strip raw
    if line.isEmpty then
      (if buf.isEmpty then [] else [strip buf]) ++ merge_lines_go rest []
    else if secMatch line || pyIsUpper line then
      (if buf.isEmpty then [] else [strip buf]) ++ line :: merge_lines_go rest []
    else if buf.isEmpty then
      merge_lines_go rest line
    else if endsSentence buf then
      strip buf :: merge_lines_go rest line
    else
      merge_lines_go rest (buf ++ ' ' :: line)

/-- The source's `merge_lines`: reflow broken lines into paragraphs,
preserving section titles. -/
def merge_lines (lines : List (List Char)) : List (List Char) :=
  merge_lines_go lines []

-- -------------------------------------------------
-- Section-title normalization (`normalize_paragraphs`)
-- -------------------------------------------------

/-- Leading `^\d+\.\s*` of the three substitution patterns: at least one
digit, a literal dot, then any whitespace; returns the remainder. -/
def leadNum (cs : List Char) : Option (List Char) :=
  let ds := cs.takeWhile regexDigit
  let rest := cs.dropWhile regexDigit
  if ds.isEmpty then none
  else match rest with
    | '.' :: r => some (r.dropWhile isPySpace)
    | _ => none

/-- `RELAT[ÓO]RIO\b` (IGNORECASE): remainder after the matched name. -/
def nameRelat (s : List Char) : Option (List Char) :=
  match ciPrefixR "relat".data s with
  | some (c :: r) =>
    if lc c = 'ó' || lc c = 'o' then
      match ciPrefixR "rio".data r with
      | some r2 => if boundaryOk r2 then some r2 else none
      | none => none
    else none
  | _ => none

/-- `FUNDAMENTA[ÇC][ÃA]O\b` (IGNORECASE): remainder after the matched name. -/
def nameFund (s : List Char) : Option (List Char) :=
  match ciPrefixR "fundamenta".data s with
  | some (c1 :: c2 :: r) =>
    if (lc c1 = 'ç' || lc c1 = 'c') && (lc c2 = 'ã' || lc c2 = 'a') then
      match ciPrefixR "o".data r with
      | some r2 => if boundaryOk r2 then some r2 else none
      | none => none
    else none
  | _ => none

/-- `DISPOSITIVO\b` (IGNORECASE): remainder after the matched name. -/
def nameDisp (s : List Char) : Option (List Char) :=
  match ciPrefixR "dispositivo".data s with
  | some r2 => if boundaryOk r2 then some r2 else none
  | none => none

/-- Remainder after `^\d+\.\s*RELAT[ÓO]RIO\b`. -/
def leadRelat (p : List Char) : Option (List Char) := (leadNum p).bind nameRelat

/-- Remainder after `^\d+\.\s*FUNDAMENTA[ÇC][ÃA]O\b`. -/
def leadFund (p : List Char) : Option (List Char) := (leadNum p).bind nameFund

/-- Remainder after `^\d+\.\s*DISPOSITIVO\b`. -/
def leadDisp (p : List Char) : Option (List Char) := (leadNum p).bind nameDisp

/-- `re.sub(r"^\d+\.\s*RELAT[ÓO]RIO\b", "### RELATORIO", p, IGNORECASE)`:
the pattern is start-anchored without MULTILINE, so at most one substitution
happens, replacing the matched span. -/
def subRelat (p : List Char) : List Char :=
  match leadRelat p with
  | some r => "### RELATORIO".data ++ r
  | none => p

/-- `re.sub(r"^\d+\.\s*FUNDAMENTA[ÇC][ÃA]O\b", "### FUNDAMENTACAO", ...)`. -/
def subFund (p : List Char) : List Char :=
  match leadFund p with
  | some r => "### FUNDAMENTACAO".data ++ r
  | none => p

/-- `re.sub(r"^\d+\.\s*DISPOSITIVO\b", "### DISPOSITIVO", ...)`. -/
def subDisp (p : List Char) : List Char :=
  match leadDisp p with
  | some r => "### DISPOSITIVO".data ++ r
  | none => p

/-- The three sequential substitutions the source applies to one paragraph. -/
def normalizeOne (p : List Char) : List Char := subDisp (subFund (subRelat p))

/-- The source's `normalize_paragraphs`: apply the three substitutions to
each paragraph, in order. -/
def normalize_paragraphs : List (List Char) → List (List Char)
  | [] => []
  | p :: ps => normalizeOne p :: normalize_paragraphs ps

-- -------------------------------------------------
-- Case-number extraction (`extrair_numero_processo`)
-- -------------------------------------------------

/-- Regex `\s+` followed by maximal whitespace consumption: at least one
whitespace character, then the remainder after the whole run.  (The next
pattern element is a non-whitespace literal, so greedy matching with
backtracking is equivalent to consuming the maximal run.) -/
def sPlus : List Char → Option (List Char)
  | [] => none
  | c :: rest => if isPySpace c then some (rest.dropWhile isPySpace) else none

/-- The capture group `(\d{7}-\d{2}\.\d{4}\.\d\.\d{2}\.\d{4})`: on success,
returns the captured token verbatim (the 25 consumed characters). -/
def grabNumero (s : List Char) : Option (List Char) :=
  match exactDigits 7 s with
  | none => none
  | some (d7, r1) =>
    match litChar '-' r1 with
    | none => none
    | some r2 =>
      match exactDigits 2 r2 with
      | none => none
      | some (d2, r3) =>
        match litChar '.' r3 with
        | none => none
        | some r4 =>
          match exactDigits 4 r4 with
          | none => none
          | some (d4, r5) =>
            match litChar '.' r5 with
            | none => none
            | some r6 =>
              match exactDigits 1 r6 with
              | none => none
              | some (d1, r7) =>
                match litChar '.' r7 with
                | none => none
                | some r8 =>
                  match exactDigits 2 r8 with
                  | none => none
                  | some (e2, r9) =>
                    match litChar '.' r9 with
                    | none => none
                    | some r10 =>
                      match exactDigits 4 r10 with
                      | none => none
                      | some (e4, _) =>
                        some (d7 ++ '-' :: d2 ++ '.' :: d4 ++ '.' :: d1 ++
                              '.' :: e2 ++ '.' :: e4)

/-- The source's `padrao_numero` matched at the head of the input:
`Processo\s+n[º#]:\s*(\d{7}-\d{2}\.\d{4}\.\d\.\d{2}\.\d{4})` (IGNORECASE);
returns the capture group. -/
def matchProcessoAt (s : List Char) : Option (List Char) :=
  match ciPrefixR "processo".data s with
  | none => none
  | some r1 =>
    match sPlus r1 with
    | none => none
    | some r2 =>
      match ciPrefixR "n".data r2 with
      | none => none
      | some r3 =>
        match r3 with
        | c :: r4 =>
          if c = 'º' || c = '#' then
            match litChar ':' r4 with
            | none => none
            | some r5 => grabNumero (r5.dropWhile isPySpace)
          else none
        | [] => none

/-- `padrao_numero.search(text)`: leftmost match of the pattern, returning
the capture group. -/
def searchProcesso : List Char → Option (List Char)
  | [] => none
  | c :: rest =>
    match matchProcessoAt (c :: rest) with
    | some g => some g
    | none => searchProcesso rest

/-- Index of the last `.` in a name (`str.rfind('.')`). -/
def rfindDot : List Char → Option Nat
  | [] => none
  | c :: rest =>
    match rfindDot rest with
    | some i => some (i + 1)
    | none => if c = '.' then some 0 else none

/-- `pathlib.Path(name).stem`: the name with its suffix removed, where a
suffix exists only when the last dot is neither the first nor the last
character of the name. -/
def pyStem (name : List Char) : List Char :=
  match rfindDot name with
  | some i => if 0 < i ∧ i < name.length - 1 then name.take i else name
  | none => name

/-- The source's `extrair_numero_processo`: search the text for the labelled
case number; otherwise, if the filename stem has length 20 and passes
`str.isdigit`, reformat it by fixed offsets `[:7] [7:9] [9:13] [13] [14:16]
[16:20]`; otherwise `None`. -/
def extrair_numero_processo (text : List Char) (nome_arquivo : List Char) :
    Option (List Char) :=
  match searchProcesso text with
  | some num => some num
  | none =>
    let s := pyStem nome_arquivo
    if s.length = 20 ∧ s.all pyIsDigitChar then
      some (s.take 7 ++ '-' :: (s.drop 7).take 2 ++ '.' :: (s.drop 9).take 4 ++
            '.' :: (s.drop 13).take 1 ++ '.' :: (s.drop 14).take 2 ++
            '.' :: (s.drop 16).take 4)
    else none

/-- CaseNumber pattern of the data model (and of the source's capture group):
`\d{7}-\d{2}\.\d{4}\.\d\.\d{2}\.\d{4}`, matched in full. -/
def caseClass (i : Nat) (c : Char) : Bool :=
  if i = 7 then c = '-'
  else if i = 10 || i = 15 || i = 17 || i = 20 then c = '.'
  else regexDigit c

/-- Full conformance of a string to the CaseNumber pattern
`NNNNNNN-DD.AAAA.J.TT.OOOO` (25 characters). -/
def conformsCaseNumber (cs : List Char) : Bool :=
  cs.length == 25 && cs.enum.all (fun p => caseClass p.1 p.2)

-- -------------------------------------------------
-- Document pipeline (`extrair_info_pdf`)
-- -------------------------------------------------

/-- Result record of `extrair_info_pdf`, mirroring the `resultado` dict of
the source (same keys). -/
structure Resultado where
  arquivo : List Char
  numeroProcesso : Option (List Char)
  texto_completo_limpo : List Char
  sucesso : Bool
  erro : Option (List Char)
deriving Repr, DecidableEq

/-- External world of one `extrair_info_pdf` call, as seen through its
collaborators.  `nome` is the file name (`caminho_pdf.name`).  `openExc` is
the message of an exception raised by `pdfplumber.open`/the `with` block
setup, caught at line 214 of the source.  `pages` gives, per page, either the
message of an exception raised by `page.extract_text()` (caught per page at
line 211) or the extracted text (`none` models `extract_text()` returning
`None`, which the source replaces by `""`).  `procExc` is the message of an
unexpected exception raised during the later processing stages (lines
219-233), caught at the pipeline boundary (line 237); it is `none` in a
normal run. -/
structure PdfSource where
  nome : List Char
  openExc : Option (List Char)
  pages : List (Except (List Char) (Option (List Char)))
  procExc : Option (List Char)

/-- Texts of the pages whose extraction succeeded, with `None` replaced by
the empty string (`page.extract_text() or ""`); pages whose extraction raised
contribute nothing, to either text accumulator. -/
def successTexts (pages : List (Except (List Char) (Option (List Char)))) :
    List (List Char) :=
  pages.filterMap (fun p =>
    match p with
    | .ok t => some (t.getD [])
    | .error _ => none)

/-- Per-line filter of the page loop: header and footer lines are dropped,
blank lines are recorded as `""`, and body lines are kept verbatim. -/
def cleanLine (line : List Char) : Option (List Char) :=
  if is_header_line line || is_footer_line line then none
  else if (strip line).isEmpty then some [] else some line

/-- The `cleaned_lines` contributed by one page's text. -/
def cleanedLinesOf (t : List Char) : List (List Char) :=
  (splitlines t).filterMap cleanLine

/-- `texto_completo_limpo` computed from the per-page texts: clean the lines,
merge them into paragraphs, normalize the section titles, join the paragraphs
with a blank line and strip the result. -/
def textoLimpo (texts : List (List Char)) : List Char :=
  strip (List.intercalate "\n\n".data
    (normalize_paragraphs (merge_lines (texts.map cleanedLinesOf).flatten)))

/-- The source's `extrair_info_pdf`, over the collaborator model `PdfSource`.
The branches mirror, in order: the open failure (error message truncated to
50 characters), the zero-page check, the pipeline-boundary handler for an
unexpected processing exception (error message *not* truncated), and the
success path.  The function is total: no exception propagates past it. -/
def extrair_info_pdf (src : PdfSource) : Resultado :=
  match src.openExc with
  | some e =>
    { arquivo := src.nome, numeroProcesso := none, texto_completo_limpo := [],
      sucesso := false, erro := some ("Erro ao abrir PDF: ".data ++ e.take 50) }
  | none =>
    if src.pages.isEmpty then
      { arquivo := src.nome, numeroProcesso := none, texto_completo_limpo := [],
        sucesso := false, erro := some "PDF vazio ou sem páginas".data }
    else
      match src.procExc with
      | some e =>
        { arquivo := src.nome, numeroProcesso := none, texto_completo_limpo := [],
          sucesso := false, erro := some ("Erro ao processar PDF: ".data ++ e) }
      | none =>
        let texts := successTexts src.pages
        { arquivo := src.nome,
          numeroProcesso :=
            extrair_numero_processo (List.intercalate ['\n'] texts) src.nome,
          texto_completo_limpo := textoLimpo texts,
          sucesso := true, erro := none }

-- -------------------------------------------------
-- Sanity checks of the embedding on concrete inputs
-- -------------------------------------------------

example : is_header_line "  PODER JUDICIÁRIO DO ESTADO".data = true := by decide

example : is_header_line "Fórum Clóvis Beviláqua".data = true := by decide

example : is_header_line "Rua X, CEP: 60000-000, Fortaleza".data = true := by decide

example : is_header_line "O réu foi citado.".data = false := by decide

example : is_footer_line "fls. 12".data = true := by decide

example : is_footer_line "Este documento é cópia do original".data = true := by decide

example : is_footer_line "folhas 12".data = false := by decide

example : merge_lines ["The court finds".data, "that the claim is valid.".data]
    = ["The court finds that the claim is valid.".data] := by decide

example : merge_lines ["1. RELATÓRIO".data, "Trata-se de ação.".data]
    = ["1. RELATÓRIO".data, "Trata-se de ação.".data] := by decide

example : merge_lines ["SENTENÇA".data] = ["SENTENÇA".data] := by decide

example : normalize_paragraphs ["1. RELATÓRIO".data, "2.FUNDAMENTAÇÃO - mérito".data, "3. dispositivo".data, "Texto comum.".data]
    = ["### RELATORIO".data, "### FUNDAMENTACAO - mérito".data, "### DISPOSITIVO".data, "Texto comum.".data] := by decide

example : normalizeOne "1. RELATORIOX".data = "1. RELATORIOX".data := by decide

example : extrair_numero_processo "Autos do Processo nº: 0000498-37.2018.8.06.0127 em curso".data "x.pdf".data
    = some "0000498-37.2018.8.06.0127".data := by decide

example : extrair_numero_processo "sem rótulo".data "00004983720188060127.pdf".data
    = some "0000498-37.2018.8.06.0127".data := by decide

example : extrair_numero_processo "sem rótulo".data "sentenca_final.pdf".data = none := by decide

example : conformsCaseNumber "0000498-37.2018.8.06.0127".data = true := by decide

example :
    extrair_info_pdf
      { nome := "a.pdf".data, openExc := none,
        pages := [Except.ok (some "SENTENÇA\nO réu foi\ncitado e intimado.".data)],
        procExc := none } =
    { arquivo := "a.pdf".data, numeroProcesso := none,
      texto_completo_limpo := "SENTENÇA\n\nO réu foi citado e intimado.".data,
      sucesso := true, erro := none } := by decide

-- -------------------------------------------------
-- Helper lemmas
-- -------------------------------------------------

/-- A non-empty `dropWhile` result starts with a character refuting the
predicate. -/
lemma dropWhile_head_false (p : Char → Bool) :
    ∀ cs : List Char, cs.dropWhile p = [] ∨
      ∃ c r, cs.dropWhile p = c :: r ∧ p c = false
  | [] => Or.inl rfl
  | c :: cs => by
    by_cases h : p c
    · simpa [List.dropWhile_cons, h] using dropWhile_head_false p cs
    · exact Or.inr ⟨c, cs, by simp [List.dropWhile_cons, h], by simpa using h⟩

/-- `stripR` either empties a list or keeps its head. -/
lemma stripR_cons_shape (c : Char) (cs : List Char) :
    stripR (c :: cs) = [] ∨ ∃ r, stripR (c :: cs) = c :: r := by
  simp only [stripR]
  by_cases h : (stripR cs).isEmpty
  · by_cases hc : isPySpace c
    · simp [h, hc]
    · simp [h, hc]
  · simp [h]

/-- The head of a stripped string is not whitespace. -/
lemma strip_head_not_space {cs : List Char} {c : Char} {r : List Char}
    (h : strip cs = c :: r) : isPySpace c = false := by
  unfold strip at h
  rcases dropWhile_head_false isPySpace cs with h0 | ⟨d, rest, h1, h2⟩
  · rw [h0] at h; simp [stripR] at h
  · rw [h1] at h
    rcases stripR_cons_shape d rest with h3 | ⟨r', h3⟩
    · rw [h3] at h; exact absurd h (by simp)
    · rw [h3] at h
      have : d = c := (List.cons.injEq _ _ _ _ ▸ h).1
      rw [← this]; exact h2

/-- Stripping leaves nothing for a further `dropWhile` to remove. -/
lemma dropWhile_strip (cs : List Char) :
    (strip cs).dropWhile isPySpace = strip cs := by
  cases h : strip cs with
  | nil => simp
  | cons c r =>
    have := strip_head_not_space h
    simp [List.dropWhile_cons, this]

/-- `stripR` is idempotent. -/
lemma stripR_idem : ∀ cs : List Char, stripR (stripR cs) = stripR cs
  | [] => rfl
  | c :: cs => by
    simp only [stripR]
    by_cases h : (stripR cs).isEmpty
    · by_cases hc : isPySpace c
      · simp [h, hc, stripR]
      · simp [h, hc, stripR]
    · simp only [h, if_false, Bool.false_eq_true]
      have hne : stripR cs ≠ [] := by
        intro hh; rw [hh] at h; simp at h
      simp only [stripR, stripR_idem cs, h]
      simp [if_neg, h]

/-- `strip` is idempotent. -/
lemma strip_idem (cs : List Char) : strip (strip cs) = strip cs := by
  show stripR ((strip cs).dropWhile isPySpace) = strip cs
  rw [dropWhile_strip]
  show stripR (stripR (cs.dropWhile isPySpace)) = _
  exact stripR_idem _

/-- Decomposition of a successful case-insensitive prefix match. -/
lemma ciPrefixR_cons {p : Char} {ps cs r : List Char}
    (h : ciPrefixR (p :: ps) cs = some r) :
    ∃ c cs', cs = c :: cs' ∧ lc c = lc p ∧ ciPrefixR ps cs' = some r := by
  cases cs with
  | nil => simp [ciPrefixR] at h
  | cons c cs' =>
    by_cases hc : lc c = lc p
    · exact ⟨c, cs', rfl, hc, by simpa [ciPrefixR, hc] using h⟩
    · simp [ciPrefixR, hc] at h

/-- An empty buffer never satisfies the trailing-punctuation test. -/
lemma endsSentence_nil : endsSentence [] = false := rfl

/-- A buffer satisfying the trailing-punctuation test is non-empty. -/
lemma endsSentence_ne_nil {cs : List Char} (h : endsSentence cs = true) :
    cs ≠ [] := by
  intro hh; rw [hh] at h; simp [endsSentence] at h

/-- When every line ends in terminal punctuation (after trimming) and the
buffer is empty or itself punctuation-terminated and stripped, the reflow
emits the buffer and then one paragraph per line. -/
lemma merge_lines_go_punct :
    ∀ (lines : List (List Char)) (buf : List Char),
      (∀ l ∈ lines, endsSentence (strip l) = true) →
      (buf = [] ∨ (endsSentence buf = true ∧ strip buf = buf)) →
      merge_lines_go lines buf =
        (if buf.isEmpty then [] else [buf]) ++ lines.map strip
  | [], buf, _, hbuf => by
    rcases hbuf with rfl | ⟨h1, h2⟩
    · simp [merge_lines_go]
    · have hne : buf ≠ [] := endsSentence_ne_nil h1
      have hE : buf.isEmpty = false := by simpa [List.isEmpty_iff] using hne
      simp [merge_lines_go, hE, h2]
  | raw :: rest, buf, hl, hbuf => by
    have hr : endsSentence (strip raw) = true := hl raw (by simp)
    have hrne : strip raw ≠ [] := endsSentence_ne_nil hr
    have hrE : (strip raw).isEmpty = false := by
      simpa [List.isEmpty_iff] using hrne
    have hrest : ∀ l ∈ rest, endsSentence (strip l) = true := fun l hm =>
      hl l (by simp [hm])
    by_cases hhb : (secMatch (strip raw) || pyIsUpper (strip raw)) = true
    · have ih := merge_lines_go_punct rest [] hrest (Or.inl rfl)
      rcases hbuf with rfl | ⟨h1, h2⟩
      · simp [merge_lines_go, hrE, hhb, ih]
      · have hne : buf ≠ [] := endsSentence_ne_nil h1
        have hE : buf.isEmpty = false := by simpa [List.isEmpty_iff] using hne
        simp [merge_lines_go, hrE, hhb, ih, hE, h2]
    · have hhb' : (secMatch (strip raw) || pyIsUpper (strip raw)) = false := by
        simpa using hhb
      have ih := merge_lines_go_punct rest (strip raw) hrest
        (Or.inr ⟨hr, strip_idem raw⟩)
      rcases hbuf with rfl | ⟨h1, h2⟩
      · simp [merge_lines_go, hrE, hhb', ih]
      · have hne : buf ≠ [] := endsSentence_ne_nil h1
        have hE : buf.isEmpty = false := by simpa [List.isEmpty_iff] using hne
        simp [merge_lines_go, hrE, hhb', ih, hE, h1, h2]

/-- C2 — ParagraphReflower punctuation boundary: an ordinary (non-blank,
non-hard-break) line arriving on a non-empty buffer flushes the buffer and
starts a new paragraph iff the buffer ends in one of `. ! ? ; :`, and is
otherwise appended to the buffer separated by exactly one space; the input
`["The court finds", "that the claim is valid."]` yields the single merged
paragraph, and a sequence of lines each ending in terminal punctuation yields
one paragraph per line, in input order. -/
theorem C2_punctuation_boundary :
    (∀ (raw : List Char) (rest : List (List Char)) (buf : List Char),
      buf ≠ [] → strip raw ≠ [] →
      secMatch (strip raw) = false → pyIsUpper (strip raw) = false →
      merge_lines_go (raw :: rest) buf =
        if endsSentence buf then strip buf :: merge_lines_go rest (strip raw)
        else merge_lines_go rest (buf ++ ' ' :: strip raw)) ∧
    merge_lines ["The court finds".data, "that the claim is valid.".data] =
      ["The court finds that the claim is valid.".data] ∧
    (∀ lines : List (List Char),
      (∀ l ∈ lines, endsSentence (strip l) = true) →
      merge_lines lines = lines.map strip) := by
  refine ⟨?_, by decide, ?_⟩
  · intro raw rest buf hbuf hne hsec hup
    have hE : (strip raw).isEmpty = false := by simpa [List.isEmpty_iff] using hne
    have hbufE : buf.isEmpty = false := by simpa [List.isEmpty_iff] using hbuf
    simp [merge_lines_go, hE, hsec, hup, hbufE]
  · intro lines hl
    simpa [merge_lines] using merge_lines_go_punct lines [] hl (Or.inl rfl)

/-- Witness for C2 at concrete inputs: a non-terminated buffer is joined with
one space, a terminated buffer is flushed, and fully punctuated input maps to
one paragraph per line. -/
theorem C2_punctuation_boundary_witness :
    merge_lines_go ["second line".data] "first part".data =
      ["first part second line".data] ∧
    merge_lines_go ["Second sentence?".data] "First sentence.".data =
      ["First sentence.".data, "Second sentence?".data] ∧
    merge_lines ["Um.".data, "Dois!".data] = ["Um.".data, "Dois!".data] := by
  refine ⟨?_, ?_, ?_⟩
  · have h := C2_punctuation_boundary.1 "second line".data [] "first part".data
      (by decide) (by decide) (by decide) (by decide)
    rw [h]; decide
  · have h := C2_punctuation_boundary.1 "Second sentence?".data []
      "First sentence.".data (by decide) (by decide) (by decide) (by decide)
    rw [h]; decide
  · have h := C2_punctuation_boundary.2.2 ["Um.".data, "Dois!".data] (by decide)
    rw [h]; decide

/-- C3 — ParagraphReflower hard break: a non-blank line that (after trimming)
matches the numbered-section heading pattern or is entirely upper-case first
flushes any non-empty buffer as a paragraph and is then emitted as its own
single-line paragraph, with the reflow continuing on an empty buffer, so it
is never joined to the preceding or following paragraph, regardless of the
buffer's trailing punctuation. -/
theorem C3_hard_break (raw : List Char) (rest : List (List Char))
    (buf : List Char) (hne : strip raw ≠ [])
    (hhb : secMatch (strip raw) = true ∨ pyIsUpper (strip raw) = true) :
    merge_lines_go (raw :: rest) buf =
      (if buf.isEmpty then [] else [strip buf]) ++
        strip raw :: merge_lines_go rest [] := by
  have hE : (strip raw).isEmpty = false := by simpa [List.isEmpty_iff] using hne
  have h2 : (secMatch (strip raw) || pyIsUpper (strip raw)) = true := by
    rcases hhb with h | h <;> simp [h]
  simp [merge_lines_go, hE, h2]

/-- Witness for C3: a numbered section heading (accented, mixed case) and an
all-caps line each stand alone, even after a buffer with no trailing
punctuation. -/
theorem C3_hard_break_witness :
    merge_lines_go ["1. Relatório".data, "seguinte".data] "texto sem fim".data =
      ["texto sem fim".data, "1. Relatório".data, "seguinte".data] ∧
    merge_lines_go ["SENTENÇA".data] "texto sem fim".data =
      ["texto sem fim".data, "SENTENÇA".data] := by
  constructor
  · have h := C3_hard_break "1. Relatório".data ["seguinte".data]
      "texto sem fim".data (by decide) (Or.inl (by decide))
    rw [h]; decide
  · have h := C3_hard_break "SENTENÇA".data [] "texto sem fim".data
      (by decide) (Or.inr (by decide))
    rw [h]; decide

/-- C10 — the all-caps hard-break test requires a cased character: a trimmed
line containing no cased character (e.g. only digits and punctuation) has
`str.isupper() = False`, so unless it matches the numbered-section heading
pattern it is handled by the ordinary body-line rules (seed, flush on
trailing punctuation, or single-space join). -/
theorem C10_isupper_needs_cased (raw : List Char) (rest : List (List Char))
    (buf : List Char) (hne : strip raw ≠ [])
    (hcase : ∀ c ∈ strip raw, isCased c = false)
    (hsec : secMatch (strip raw) = false) :
    pyIsUpper (strip raw) = false ∧
    merge_lines_go (raw :: rest) buf =
      (if buf.isEmpty then merge_lines_go rest (strip raw)
       else if endsSentence buf then strip buf :: merge_lines_go rest (strip raw)
       else merge_lines_go rest (buf ++ ' ' :: strip raw)) := by
  have hany : (strip raw).any isCased = false := by
    simp only [List.any_eq_false]
    intro c hc
    simpa using hcase c hc
  have hup : pyIsUpper (strip raw) = false := by
    simp [pyIsUpper, hany]
  refine ⟨hup, ?_⟩
  have hE : (strip raw).isEmpty = false := by simpa [List.isEmpty_iff] using hne
  simp [merge_lines_go, hE, hsec, hup]

/-- Witness for C10: the digits-and-punctuation line `123.` is not an upper
hard break and is merged into the open paragraph by the single-space rule. -/
theorem C10_isupper_needs_cased_witness :
    pyIsUpper (strip "123.".data) = false ∧
    merge_lines_go ["123.".data] "total de".data = ["total de 123.".data] := by
  have h := C10_isupper_needs_cased "123.".data [] "total de".data
    (by decide) (by decide) (by decide)
  refine ⟨h.1, ?_⟩
  rw [h.2]; decide

/-- A case-insensitive prefix match fails when the first characters disagree
under case folding. -/
lemma ciPrefixR_head_ne {p : Char} {ps : List Char} {c : Char} {t : List Char}
    (h : lc c ≠ lc p) : ciPrefixR (p :: ps) (c :: t) = none := by
  simp [ciPrefixR, h]

/-- A paragraph matched by `RELAT[ÓO]RIO\b` starts with an `r`. -/
lemma nameRelat_head {s r : List Char} (h : nameRelat s = some r) :
    ∃ c t, s = c :: t ∧ lc c = 'r' := by
  unfold nameRelat at h
  cases hc : ciPrefixR "relat".data s with
  | none => rw [hc] at h; simp at h
  | some u =>
    obtain ⟨c, t, hs, hlc, _⟩ :=
      ciPrefixR_cons (show ciPrefixR ('r' :: "elat".data) s = some u from hc)
    exact ⟨c, t, hs, by rw [hlc]; decide⟩

/-- A paragraph matched by `FUNDAMENTA[ÇC][ÃA]O\b` starts with an `f`. -/
lemma nameFund_head {s r : List Char} (h : nameFund s = some r) :
    ∃ c t, s = c :: t ∧ lc c = 'f' := by
  unfold nameFund at h
  cases hc : ciPrefixR "fundamenta".data s with
  | none => rw [hc] at h; simp at h
  | some u =>
    obtain ⟨c, t, hs, hlc, _⟩ :=
      ciPrefixR_cons (show ciPrefixR ('f' :: "undamenta".data) s = some u from hc)
    exact ⟨c, t, hs, by rw [hlc]; decide⟩

/-- A paragraph matched by `DISPOSITIVO\b` starts with a `d`. -/
lemma nameDisp_head {s r : List Char} (h : nameDisp s = some r) :
    ∃ c t, s = c :: t ∧ lc c = 'd' := by
  unfold nameDisp at h
  cases hc : ciPrefixR "dispositivo".data s with
  | none => rw [hc] at h; simp at h
  | some u =>
    obtain ⟨c, t, hs, hlc, _⟩ :=
      ciPrefixR_cons (show ciPrefixR ('d' :: "ispositivo".data) s = some u from hc)
    exact ⟨c, t, hs, by rw [hlc]; decide⟩

/-- The three section names are mutually exclusive: a name starting with a
character other than `r` cannot match `RELAT[ÓO]RIO`. -/
lemma nameRelat_none {c : Char} {t : List Char} (h : lc c ≠ 'r') :
    nameRelat (c :: t) = none := by
  unfold nameRelat
  have : ciPrefixR "relat".data (c :: t) = none :=
    ciPrefixR_head_ne (by rw [show lc 'r' = 'r' from by decide]; exact h)
  rw [this]

/-- A name starting with a character other than `f` cannot match
`FUNDAMENTA[ÇC][ÃA]O`. -/
lemma nameFund_none {c : Char} {t : List Char} (h : lc c ≠ 'f') :
    nameFund (c :: t) = none := by
  unfold nameFund
  have : ciPrefixR "fundamenta".data (c :: t) = none :=
    ciPrefixR_head_ne (by rw [show lc 'f' = 'f' from by decide]; exact h)
  rw [this]

/-- A name starting with a character other than `d` cannot match
`DISPOSITIVO`. -/
lemma nameDisp_none {c : Char} {t : List Char} (h : lc c ≠ 'd') :
    nameDisp (c :: t) = none := by
  unfold nameDisp
  have : ciPrefixR "dispositivo".data (c :: t) = none :=
    ciPrefixR_head_ne (by rw [show lc 'd' = 'd' from by decide]; exact h)
  rw [this]

/-- No substitution pattern matches after a leading `#` (the canonical
heading marker is not a digit). -/
lemma leadNum_hash (xs : List Char) : leadNum ('#' :: xs) = none := by
  simp [leadNum, List.takeWhile_cons, List.dropWhile_cons, regexDigit]

lemma subRelat_of_none {p : List Char} (h : leadRelat p = none) :
    subRelat p = p := by unfold subRelat; rw [h]

lemma subFund_of_none {p : List Char} (h : leadFund p = none) :
    subFund p = p := by unfold subFund; rw [h]

lemma subDisp_of_none {p : List Char} (h : leadDisp p = none) :
    subDisp p = p := by unfold subDisp; rw [h]

/-- Only the RELATORIO substitution fires on a RELATORIO heading. -/
lemma lead_excl_relat {p r : List Char} (h : leadRelat p = some r) :
    leadFund p = none ∧ leadDisp p = none := by
  unfold leadRelat at h
  rw [Option.bind_eq_some] at h
  obtain ⟨q, hn, h⟩ := h
  obtain ⟨c, t, rfl, hlc⟩ := nameRelat_head h
  constructor
  · unfold leadFund; rw [hn]; simp [nameFund_none (by rw [hlc]; decide)]
  · unfold leadDisp; rw [hn]; simp [nameDisp_none (by rw [hlc]; decide)]

/-- Only the FUNDAMENTACAO substitution fires on a FUNDAMENTACAO heading. -/
lemma lead_excl_fund {p r : List Char} (h : leadFund p = some r) :
    leadRelat p = none ∧ leadDisp p = none := by
  unfold leadFund at h
  rw [Option.bind_eq_some] at h
  obtain ⟨q, hn, h⟩ := h
  obtain ⟨c, t, rfl, hlc⟩ := nameFund_head h
  constructor
  · unfold leadRelat; rw [hn]; simp [nameRelat_none (by rw [hlc]; decide)]
  · unfold leadDisp; rw [hn]; simp [nameDisp_none (by rw [hlc]; decide)]

/-- Only the DISPOSITIVO substitution fires on a DISPOSITIVO heading. -/
lemma lead_excl_disp {p r : List Char} (h : leadDisp p = some r) :
    leadRelat p = none ∧ leadFund p = none := by
  unfold leadDisp at h
  rw [Option.bind_eq_some] at h
  obtain ⟨q, hn, h⟩ := h
  obtain ⟨c, t, rfl, hlc⟩ := nameDisp_head h
  constructor
  · unfold leadRelat; rw [hn]; simp [nameRelat_none (by rw [hlc]; decide)]
  · unfold leadFund; rw [hn]; simp [nameFund_none (by rw [hlc]; decide)]

/-- The canonical replacements themselves match no substitution pattern. -/
lemma leadFund_hash (l r : List Char) :
    leadFund (('#' :: l) ++ r) = none := by
  unfold leadFund; rw [show ('#' :: l) ++ r = '#' :: (l ++ r) from rfl, leadNum_hash]; rfl

lemma leadDisp_hash (l r : List Char) :
    leadDisp (('#' :: l) ++ r) = none := by
  unfold leadDisp; rw [show ('#' :: l) ++ r = '#' :: (l ++ r) from rfl, leadNum_hash]; rfl

/-- `normalize_paragraphs` is the element-wise map of `normalizeOne`. -/
lemma normalize_paragraphs_map :
    ∀ ps : List (List Char), normalize_paragraphs ps = ps.map normalizeOne
  | [] => rfl
  | p :: ps => by simp [normalize_paragraphs, normalize_paragraphs_map ps]

/-- On a RELATORIO heading, `normalizeOne` replaces exactly the matched
leading token and keeps the remainder. -/
lemma normalizeOne_relat {p r : List Char} (h : leadRelat p = some r) :
    normalizeOne p = "### RELATORIO".data ++ r := by
  have hF : leadFund ("### RELATORIO".data ++ r) = none :=
    leadFund_hash "## RELATORIO".data r
  have hD : leadDisp ("### RELATORIO".data ++ r) = none :=
    leadDisp_hash "## RELATORIO".data r
  unfold normalizeOne
  rw [show subRelat p = "### RELATORIO".data ++ r from by unfold subRelat; rw [h],
      subFund_of_none hF, subDisp_of_none hD]

/-- On a FUNDAMENTACAO heading, `normalizeOne` replaces exactly the matched
leading token and keeps the remainder. -/
lemma normalizeOne_fund {p r : List Char} (h : leadFund p = some r) :
    normalizeOne p = "### FUNDAMENTACAO".data ++ r := by
  obtain ⟨hR, _⟩ := lead_excl_fund h
  have hD : leadDisp ("### FUNDAMENTACAO".data ++ r) = none :=
    leadDisp_hash "## FUNDAMENTACAO".data r
  unfold normalizeOne
  rw [subRelat_of_none hR,
      show subFund p = "### FUNDAMENTACAO".data ++ r from by unfold subFund; rw [h],
      subDisp_of_none hD]

/-- On a DISPOSITIVO heading, `normalizeOne` replaces exactly the matched
leading token and keeps the remainder. -/
lemma normalizeOne_disp {p r : List Char} (h : leadDisp p = some r) :
    normalizeOne p = "### DISPOSITIVO".data ++ r := by
  obtain ⟨hR, hF⟩ := lead_excl_disp h
  unfold normalizeOne
  rw [subRelat_of_none hR, subFund_of_none hF]
  unfold subDisp; rw [h]

/-- C8 — SectionNormalizer: `normalize_paragraphs` is the 1:1 in-order map of
the per-paragraph rewrite (output length equals input length); a paragraph
whose leading token matches one of the three numbered-heading patterns has
only that token replaced by `### ` plus the canonical unaccented label, the
trailing text being preserved, and the other two patterns do not match it;
a paragraph matching none of the three patterns is returned unchanged. -/
theorem C8_section_normalizer :
    (∀ ps : List (List Char),
      normalize_paragraphs ps = ps.map normalizeOne ∧
      (normalize_paragraphs ps).length = ps.length) ∧
    (∀ p r : List Char, leadRelat p = some r →
      normalizeOne p = "### RELATORIO".data ++ r ∧
      leadFund p = none ∧ leadDisp p = none) ∧
    (∀ p r : List Char, leadFund p = some r →
      normalizeOne p = "### FUNDAMENTACAO".data ++ r ∧
      leadRelat p = none ∧ leadDisp p = none) ∧
    (∀ p r : List Char, leadDisp p = some r →
      normalizeOne p = "### DISPOSITIVO".data ++ r ∧
      leadRelat p = none ∧ leadFund p = none) ∧
    (∀ p : List Char, leadRelat p = none → leadFund p = none →
      leadDisp p = none → normalizeOne p = p) := by
  refine ⟨?_, ?_, ?_, ?_, ?_⟩
  · intro ps
    refine ⟨normalize_paragraphs_map ps, ?_⟩
    rw [normalize_paragraphs_map ps, List.length_map]
  · intro p r h
    exact ⟨normalizeOne_relat h, lead_excl_relat h⟩
  · intro p r h
    obtain ⟨h1, h2⟩ := lead_excl_fund h
    exact ⟨normalizeOne_fund h, h1, h2⟩
  · intro p r h
    obtain ⟨h1, h2⟩ := lead_excl_disp h
    exact ⟨normalizeOne_disp h, h1, h2⟩
  · intro p h1 h2 h3
    unfold normalizeOne
    rw [subRelat_of_none h1, subFund_of_none h2, subDisp_of_none h3]

/-- Witness for C8: a RELATORIO heading with trailing text is rewritten with
the trailing text preserved, and a paragraph with no leading section pattern
passes through unchanged. -/
theorem C8_section_normalizer_witness :
    normalizeOne "2. Relatório do caso".data = "### RELATORIO do caso".data ∧
    normalizeOne "Texto comum.".data = "Texto comum.".data ∧
    normalize_paragraphs ["2. Relatório do caso".data, "Texto comum.".data] =
      ["### RELATORIO do caso".data, "Texto comum.".data] := by
  have h1 := C8_section_normalizer.2.1 "2. Relatório do caso".data
    " do caso".data (by decide)
  have h2 := C8_section_normalizer.2.2.2.2 "Texto comum.".data
    (by decide) (by decide) (by decide)
  have h3 := (C8_section_normalizer.1
    ["2. Relatório do caso".data, "Texto comum.".data]).1
  refine ⟨by rw [h1.1]; decide, h2, ?_⟩
  rw [h3]; simp only [List.map_cons, List.map_nil, h1.1, h2]; decide

/-- Two-character decomposition of a successful case-insensitive prefix
match. -/
lemma ciPrefixR_two {p0 p1 : Char} {ps cs r : List Char}
    (h : ciPrefixR (p0 :: p1 :: ps) cs = some r) :
    ∃ c0 c1 t, cs = c0 :: c1 :: t ∧ lc c0 = lc p0 ∧ lc c1 = lc p1 := by
  obtain ⟨c0, cs', rfl, h0, h1⟩ := ciPrefixR_cons h
  obtain ⟨c1, t, rfl, h2, _⟩ := ciPrefixR_cons h1
  exact ⟨c0, c1, t, rfl, h0, h2⟩

/-- Every footer pattern pins down the case-folded first two characters of
the stripped line: `es` (Este), `pa` (Para), `do` (Documento) or `fl`
(fls.). -/
lemma footer_shape {raw : List Char} (h : is_footer_line raw = true) :
    ∃ c0 c1 t, strip raw = c0 :: c1 :: t ∧
      ((lc c0 = 'e' ∧ lc c1 = 's') ∨ (lc c0 = 'p' ∧ lc c1 = 'a') ∨
       (lc c0 = 'd' ∧ lc c1 = 'o') ∨ (lc c0 = 'f' ∧ lc c1 = 'l')) := by
  simp only [is_footer_line, Bool.and_eq_true, Bool.or_eq_true] at h
  obtain ⟨-, h⟩ := h
  rcases h with ((h | h) | h) | h
  · unfold fEste at h
    cases hc : ciPrefixR "este documento é cópia do original".data (strip raw) with
    | none => rw [hc] at h; simp at h
    | some u =>
      obtain ⟨c0, c1, t, hs, h0, h1⟩ := ciPrefixR_two
        (show ciPrefixR ('e' :: 's' :: "te documento é cópia do original".data)
          (strip raw) = some u from hc)
      exact ⟨c0, c1, t, hs, Or.inl ⟨by rw [h0]; decide, by rw [h1]; decide⟩⟩
  · unfold fPara at h
    cases hc : ciPrefixR "para conferir o original".data (strip raw) with
    | none => rw [hc] at h; simp at h
    | some u =>
      obtain ⟨c0, c1, t, hs, h0, h1⟩ := ciPrefixR_two
        (show ciPrefixR ('p' :: 'a' :: "ra conferir o original".data)
          (strip raw) = some u from hc)
      exact ⟨c0, c1, t, hs, Or.inr (Or.inl ⟨by rw [h0]; decide, by rw [h1]; decide⟩)⟩
  · unfold fDoc at h
    cases hc : ciPrefixR "documento eletrônico assinado por".data (strip raw) with
    | none => rw [hc] at h; simp at h
    | some u =>
      obtain ⟨c0, c1, t, hs, h0, h1⟩ := ciPrefixR_two
        (show ciPrefixR ('d' :: 'o' :: "cumento eletrônico assinado por".data)
          (strip raw) = some u from hc)
      exact ⟨c0, c1, t, hs,
        Or.inr (Or.inr (Or.inl ⟨by rw [h0]; decide, by rw [h1]; decide⟩))⟩
  · unfold fFls at h
    cases hc : ciPrefixR "fls.".data (strip raw) with
    | none => rw [hc] at h; simp at h
    | some u =>
      obtain ⟨c0, c1, t, hs, h0, h1⟩ := ciPrefixR_two
        (show ciPrefixR ('f' :: 'l' :: "s.".data) (strip raw) = some u from hc)
      exact ⟨c0, c1, t, hs,
        Or.inr (Or.inr (Or.inr ⟨by rw [h0]; decide, by rw [h1]; decide⟩))⟩

/-- Every header match is either the unanchored CEP marker or pins down the
case-folded first two characters of the stripped line: `po` (PODER), `co`
(Comarca), `va` (Vara), `f` + `ó`/`o` (Fórum), `te` (Tel) or `em` (Email). -/
lemma header_shape {raw : List Char} (h : is_header_line raw = true) :
    pCEP (strip raw) = true ∨
    ∃ c0 c1 t, strip raw = c0 :: c1 :: t ∧
      ((lc c0 = 'p' ∧ lc c1 = 'o') ∨ (lc c0 = 'c' ∧ lc c1 = 'o') ∨
       (lc c0 = 'v' ∧ lc c1 = 'a') ∨ (lc c0 = 'f' ∧ (lc c1 = 'ó' ∨ lc c1 = 'o')) ∨
       (lc c0 = 't' ∧ lc c1 = 'e') ∨ (lc c0 = 'e' ∧ lc c1 = 'm')) := by
  simp only [is_header_line, Bool.and_eq_true, Bool.or_eq_true] at h
  obtain ⟨-, h⟩ := h
  rcases h with (((((h | h) | h) | h) | h) | h) | h
  · unfold pPoder at h
    cases hc : ciPrefixR "poder judici".data (strip raw) with
    | none => rw [hc] at h; simp at h
    | some u =>
      obtain ⟨c0, c1, t, hs, h0, h1⟩ := ciPrefixR_two
        (show ciPrefixR ('p' :: 'o' :: "der judici".data) (strip raw) = some u from hc)
      exact Or.inr ⟨c0, c1, t, hs,
        Or.inl ⟨by rw [h0]; decide, by rw [h1]; decide⟩⟩
  · unfold pComarca at h
    cases hc : ciPrefixR "comarca de".data (strip raw) with
    | none => rw [hc] at h; simp at h
    | some u =>
      obtain ⟨c0, c1, t, hs, h0, h1⟩ := ciPrefixR_two
        (show ciPrefixR ('c' :: 'o' :: "marca de".data) (strip raw) = some u from hc)
      exact Or.inr ⟨c0, c1, t, hs,
        Or.inr (Or.inl ⟨by rw [h0]; decide, by rw [h1]; decide⟩)⟩
  · unfold pVara at h
    cases hc : ciPrefixR "vara ".data (strip raw) with
    | none => rw [hc] at h; simp at h
    | some u =>
      obtain ⟨c0, c1, t, hs, h0, h1⟩ := ciPrefixR_two
        (show ciPrefixR ('v' :: 'a' :: "ra ".data) (strip raw) = some u from hc)
      exact Or.inr ⟨c0, c1, t, hs,
        Or.inr (Or.inr (Or.inl ⟨by rw [h0]; decide, by rw [h1]; decide⟩))⟩
  · unfold pForum at h
    cases hc : ciPrefixR "f".data (strip raw) with
    | none => rw [hc] at h; simp at h
    | some u =>
      rw [hc] at h
      cases u with
      | nil => simp at h
      | cons c1 r =>
        obtain ⟨c0, cs', hs, h0, h1⟩ := ciPrefixR_cons
          (show ciPrefixR ('f' :: ([] : List Char)) (strip raw) = some (c1 :: r) from hc)
        have hcs' : cs' = c1 :: r := by simpa [ciPrefixR] using h1
        have hcl : lc c1 = 'ó' ∨ lc c1 = 'o' := by
          have := ((Bool.and_eq_true _ _).mp h).1
          simpa using this
        exact Or.inr ⟨c0, c1, r, by rw [hs, hcs'],
          Or.inr (Or.inr (Or.inr (Or.inl ⟨by rw [h0]; decide, hcl⟩)))⟩
  · exact Or.inl h
  · unfold pTel at h
    rw [dropWhile_strip] at h
    cases hc : ciPrefixR "tel".data (strip raw) with
    | none => rw [hc] at h; simp at h
    | some u =>
      obtain ⟨c0, c1, t, hs, h0, h1⟩ := ciPrefixR_two
        (show ciPrefixR ('t' :: 'e' :: "l".data) (strip raw) = some u from hc)
      exact Or.inr ⟨c0, c1, t, hs,
        Or.inr (Or.inr (Or.inr (Or.inr (Or.inl ⟨by rw [h0]; decide, by rw [h1]; decide⟩))))⟩
  · unfold pEmail at h
    rw [dropWhile_strip] at h
    cases hc : ciPrefixR "email".data (strip raw) with
    | none => rw [hc] at h; simp at h
    | some u =>
      obtain ⟨c0, c1, t, hs, h0, h1⟩ := ciPrefixR_two
        (show ciPrefixR ('e' :: 'm' :: "ail".data) (strip raw) = some u from hc)
      exact Or.inr ⟨c0, c1, t, hs,
        Or.inr (Or.inr (Or.inr (Or.inr (Or.inr ⟨by rw [h0]; decide, by rw [h1]; decide⟩))))⟩

/-- C9 counterexample: the line `fls. 1 CEP: 12345-678` matches both a
footer pattern (the leading page-number marker `^fls\.\s*\d+`) and a header
pattern (the unanchored postal-code marker `CEP:\s*\d{5}-\d{3}`, which may
match anywhere in the line), so the header and footer pattern sets are not
disjoint; since the header check runs first, the footer classification of
this line is masked. -/
theorem C9_counterexample :
    is_header_line "fls. 1 CEP: 12345-678".data = true ∧
    is_footer_line "fls. 1 CEP: 12345-678".data = true := by decide

/-- C9 amended — header/footer near-disjointness: a line can match both a
header pattern and a footer pattern only through the unanchored postal-code
(CEP) marker; each of the six start-anchored header patterns is disjoint
from every footer pattern, so any line classified as both header and footer
must contain the CEP marker. -/
theorem C9_header_footer_disjointness (raw : List Char)
    (hh : is_header_line raw = true) (hf : is_footer_line raw = true) :
    pCEP (strip raw) = true := by
  rcases header_shape hh with hcep | ⟨c0, c1, t, hs, hhd⟩
  · exact hcep
  · obtain ⟨c0', c1', t', hs', hfd⟩ := footer_shape hf
    rw [hs] at hs'
    injection hs' with e0 hs''
    injection hs'' with e1 _
    subst e0; subst e1
    rcases hfd with ⟨hf0, hf1⟩ | ⟨hf0, hf1⟩ | ⟨hf0, hf1⟩ | ⟨hf0, hf1⟩ <;>
    rcases hhd with ⟨hh0, hh1⟩ | ⟨hh0, hh1⟩ | ⟨hh0, hh1⟩ | ⟨hh0, hh1⟩ |
      ⟨hh0, hh1⟩ | ⟨hh0, hh1⟩ <;>
    first
      | exact absurd (hh0.symm.trans hf0) (by decide)
      | exact absurd (hh1.symm.trans hf1) (by decide)
      | (rcases hh1 with hh1 | hh1 <;> exact absurd (hh1.symm.trans hf1) (by decide))

/-- Witness for the amended C9: a concrete line classified as both header
and footer indeed contains the CEP marker. -/
theorem C9_header_footer_disjointness_witness :
    pCEP (strip "fls. 2 CEP: 60000-100".data) = true :=
  C9_header_footer_disjointness "fls. 2 CEP: 60000-100".data
    (by decide) (by decide)

/-- Pages whose extraction raised contribute nothing to the collected page
texts. -/
lemma successTexts_skip (pre post : List (Except (List Char) (Option (List Char))))
    (e : List Char) :
    successTexts (pre ++ Except.error e :: post) = successTexts (pre ++ post) := by
  unfold successTexts
  simp [List.filterMap_append, List.filterMap_cons]

/-- A cons-headed list followed by anything is non-empty (used for the
non-emptiness of prefixed error messages). -/
lemma cons_append_ne_nil (p : Char) (l t : List Char) : (p :: l) ++ t ≠ [] := by
  simp

/-- C1 — CaseNumberResolver, evaluated at the spec's examples and at a
failing input.  The positive clauses hold: labelled text yields the captured
token verbatim, a 20-decimal-digit filename stem is reformatted into the
canonical pattern, and with neither the result is absent.  But the fallback
guard is Python's `str.isdigit`, which also accepts superscript digit
characters: a filename stem of twenty `²` characters passes the guard
(`len == 20 and stem.isdigit()`), so the resolver returns a non-absent
25-character string that does not conform to the CaseNumber pattern —
contradicting the claim's trigger ("all decimal digits"), its absence
clause, and the invariant that every non-absent result conforms to the
pattern, while the source's own docstring fixes the format as
`NNNNNNN-DD.AAAA.J.TT.OOOO`. -/
theorem C1_case_number_resolver :
    extrair_numero_processo "Processo nº: 0000498-37.2018.8.06.0127".data
        "x.pdf".data = some "0000498-37.2018.8.06.0127".data ∧
    extrair_numero_processo "sem rótulo".data "00004983720188060127.pdf".data
      = some "0000498-37.2018.8.06.0127".data ∧
    conformsCaseNumber "0000498-37.2018.8.06.0127".data = true ∧
    extrair_numero_processo "sem rótulo".data "sentenca.pdf".data = none ∧
    "²²²²²²²²²²²²²²²²²²²²".data.all pyIsDigitChar = true ∧
    "²²²²²²²²²²²²²²²²²²²²".data.all regexDigit = false ∧
    extrair_numero_processo "sem rótulo".data "²²²²²²²²²²²²²²²²²²²².pdf".data
      = some "²²²²²²²-²².²²²².².²².²²²²".data ∧
    conformsCaseNumber "²²²²²²²-²².²²²².².²².²²²²".data = false := by decide

/-- C4 counterexample: an unexpected exception caught at the pipeline
boundary is *not* truncated — a 60-character exception message is embedded
in full in the error description, which therefore differs from the
50-character-truncated form used for open failures. -/
theorem C4_counterexample :
    (extrair_info_pdf
      { nome := "a.pdf".data, openExc := none,
        pages := [Except.ok (some "texto".data)],
        procExc := some "123456789012345678901234567890123456789012345678901234567890".data }).erro
      = some ("Erro ao processar PDF: ".data ++
          "123456789012345678901234567890123456789012345678901234567890".data) ∧
    ¬ ((extrair_info_pdf
      { nome := "a.pdf".data, openExc := none,
        pages := [Except.ok (some "texto".data)],
        procExc := some "123456789012345678901234567890123456789012345678901234567890".data }).erro
      = some ("Erro ao processar PDF: ".data ++
          "123456789012345678901234567890123456789012345678901234567890".data.take 50)) := by
  decide

/-- C4 amended — pipeline boundary: any unexpected exception raised during
processing after the source is opened (modelled by `procExc`) is caught at
the pipeline boundary and converted into a result with `sucesso = false` and
the error description `Erro ao processar PDF: ` followed by the *full*
exception text (no truncation; only the open-failure path truncates its
message to 50 characters); the pipeline never raises past its boundary
(`extrair_info_pdf` is total). -/
theorem C4_boundary (src : PdfSource) (e : List Char)
    (h1 : src.openExc = none) (h2 : src.pages ≠ []) (h3 : src.procExc = some e) :
    (extrair_info_pdf src).sucesso = false ∧
    (extrair_info_pdf src).erro = some ("Erro ao processar PDF: ".data ++ e) := by
  have hp : src.pages.isEmpty = false := by simpa [List.isEmpty_iff] using h2
  constructor <;> simp [extrair_info_pdf, h1, hp, h3]

/-- Witness for the amended C4 at a concrete source. -/
theorem C4_boundary_witness :
    (extrair_info_pdf
      { nome := "b.pdf".data, openExc := none, pages := [Except.ok none],
        procExc := some "falha inesperada".data }).sucesso = false ∧
    (extrair_info_pdf
      { nome := "b.pdf".data, openExc := none, pages := [Except.ok none],
        procExc := some "falha inesperada".data }).erro
      = some "Erro ao processar PDF: falha inesperada".data := by
  have h := C4_boundary
    { nome := "b.pdf".data, openExc := none, pages := [Except.ok none],
      procExc := some "falha inesperada".data }
    "falha inesperada".data rfl (List.cons_ne_nil _ _) rfl
  exact ⟨h.1, by rw [h.2]; decide⟩

/-- C5 — ExtractionResult well-formedness: every result satisfies exactly
one of (success with error absent, the cleaned text being the pipeline
output) or (failure with a non-empty error description and no cleaned text);
in particular a source that cannot be opened or has zero pages yields the
failure shape, with no partial result. -/
theorem C5_result_well_formedness (src : PdfSource) :
    (((extrair_info_pdf src).sucesso = true ∧
      (extrair_info_pdf src).erro = none ∧
      (extrair_info_pdf src).texto_completo_limpo =
        textoLimpo (successTexts src.pages)) ∨
     ((extrair_info_pdf src).sucesso = false ∧
      (extrair_info_pdf src).texto_completo_limpo = [] ∧
      ∃ e, (extrair_info_pdf src).erro = some e ∧ e ≠ [])) ∧
    ((src.openExc ≠ none ∨ src.pages = []) →
      (extrair_info_pdf src).sucesso = false ∧
      (extrair_info_pdf src).texto_completo_limpo = [] ∧
      ∃ e, (extrair_info_pdf src).erro = some e ∧ e ≠ []) := by
  cases hoe : src.openExc with
  | some e =>
    have hfail : (extrair_info_pdf src).sucesso = false ∧
        (extrair_info_pdf src).texto_completo_limpo = [] ∧
        ∃ e', (extrair_info_pdf src).erro = some e' ∧ e' ≠ [] := by
      refine ⟨by simp [extrair_info_pdf, hoe], by simp [extrair_info_pdf, hoe],
        "Erro ao abrir PDF: ".data ++ e.take 50,
        by simp [extrair_info_pdf, hoe],
        cons_append_ne_nil 'E' "rro ao abrir PDF: ".data (e.take 50)⟩
    exact ⟨Or.inr hfail, fun _ => hfail⟩
  | none =>
    by_cases hp : src.pages.isEmpty
    · have hfail : (extrair_info_pdf src).sucesso = false ∧
          (extrair_info_pdf src).texto_completo_limpo = [] ∧
          ∃ e', (extrair_info_pdf src).erro = some e' ∧ e' ≠ [] := by
        refine ⟨by simp [extrair_info_pdf, hoe, hp],
          by simp [extrair_info_pdf, hoe, hp],
          "PDF vazio ou sem páginas".data,
          by simp [extrair_info_pdf, hoe, hp], by decide⟩
      exact ⟨Or.inr hfail, fun _ => hfail⟩
    · cases hpe : src.procExc with
      | some e =>
        have hfail : (extrair_info_pdf src).sucesso = false ∧
            (extrair_info_pdf src).texto_completo_limpo = [] ∧
            ∃ e', (extrair_info_pdf src).erro = some e' ∧ e' ≠ [] := by
          refine ⟨by simp [extrair_info_pdf, hoe, hp, hpe],
            by simp [extrair_info_pdf, hoe, hp, hpe],
            "Erro ao processar PDF: ".data ++ e,
            by simp [extrair_info_pdf, hoe, hp, hpe],
            cons_append_ne_nil 'E' "rro ao processar PDF: ".data e⟩
        exact ⟨Or.inr hfail, fun _ => hfail⟩
      | none =>
        refine ⟨Or.inl ⟨by simp [extrair_info_pdf, hoe, hp, hpe],
          by simp [extrair_info_pdf, hoe, hp, hpe],
          by simp [extrair_info_pdf, hoe, hp, hpe]⟩, ?_⟩
        intro hcon
        rcases hcon with hcon | hcon
        · exact absurd rfl hcon
        · rw [hcon] at hp; simp at hp

/-- Witness for C5 at a zero-page source: failure, no cleaned text, and the
descriptive error message. -/
theorem C5_result_well_formedness_witness :
    (extrair_info_pdf
      { nome := "v.pdf".data, openExc := none, pages := [],
        procExc := none }).sucesso = false ∧
    (extrair_info_pdf
      { nome := "v.pdf".data, openExc := none, pages := [],
        procExc := none }).texto_completo_limpo = [] := by
  have h := (C5_result_well_formedness
    { nome := "v.pdf".data, openExc := none, pages := [], procExc := none }).2
    (Or.inr rfl)
  exact ⟨h.1, h.2.1⟩

/-- C6 — per-page failure recovery: with a successful open, a non-empty page
list and no unexpected processing exception, the pipeline succeeds; its
cleaned text is built from the texts of the pages that succeeded only, and
removing a failed page from the source changes nothing — a single page's
extraction failure never fails the document. -/
theorem C6_page_failure_recovery (src : PdfSource)
    (h1 : src.openExc = none) (h2 : src.pages ≠ []) (h3 : src.procExc = none) :
    (extrair_info_pdf src).sucesso = true ∧
    (extrair_info_pdf src).texto_completo_limpo =
      textoLimpo (successTexts src.pages) ∧
    (∀ (pre post : List (Except (List Char) (Option (List Char)))) (e : List Char),
      src.pages = pre ++ Except.error e :: post → pre ++ post ≠ [] →
      extrair_info_pdf src = extrair_info_pdf { src with pages := pre ++ post }) := by
  have hp : src.pages.isEmpty = false := by simpa [List.isEmpty_iff] using h2
  refine ⟨by simp [extrair_info_pdf, h1, hp, h3], by simp [extrair_info_pdf, h1, hp, h3], ?_⟩
  intro pre post e hpg hne
  have hp' : (pre ++ post).isEmpty = false := by simpa [List.isEmpty_iff] using hne
  have hst := successTexts_skip pre post e
  simp [extrair_info_pdf, h1, hp, h3, hp', hpg, hst]

/-- Witness for C6: of three pages, the middle one raises; the document
still succeeds and equals the run on the two surviving pages. -/
theorem C6_page_failure_recovery_witness :
    (extrair_info_pdf
      { nome := "c.pdf".data, openExc := none,
        pages := [Except.ok (some "Primeira parte".data),
                  Except.error "falha de pagina".data,
                  Except.ok (some "segue e termina.".data)],
        procExc := none }).sucesso = true ∧
    extrair_info_pdf
      { nome := "c.pdf".data, openExc := none,
        pages := [Except.ok (some "Primeira parte".data),
                  Except.error "falha de pagina".data,
                  Except.ok (some "segue e termina.".data)],
        procExc := none } =
    extrair_info_pdf
      { nome := "c.pdf".data, openExc := none,
        pages := [Except.ok (some "Primeira parte".data),
                  Except.ok (some "segue e termina.".data)],
        procExc := none } := by
  have h := C6_page_failure_recovery
    { nome := "c.pdf".data, openExc := none,
      pages := [Except.ok (some "Primeira parte".data),
                Except.error "falha de pagina".data,
                Except.ok (some "segue e termina.".data)],
      procExc := none } rfl (List.cons_ne_nil _ _) rfl
  exact ⟨h.1, h.2.2 [Except.ok (some "Primeira parte".data)]
    [Except.ok (some "segue e termina.".data)] "falha de pagina".data rfl
    (List.cons_ne_nil _ _)⟩

set_option maxRecDepth 8192 in
/-- C7 — the resolver input is unfiltered: on the success path the case
number is resolved from the newline-joined *raw* per-page texts (headers and
footers included), not from the cleaned text; concretely, a document whose
only occurrence of the `Processo nº:` label lies on a line classified as a
header still yields that case number, even though the cleaned text drops the
line entirely. -/
theorem C7_resolver_unfiltered (src : PdfSource)
    (h1 : src.openExc = none) (h2 : src.pages ≠ []) (h3 : src.procExc = none) :
    ((extrair_info_pdf src).numeroProcesso =
      extrair_numero_processo (List.intercalate ['\n'] (successTexts src.pages))
        src.nome) ∧
    (is_header_line
      "PODER JUDICIÁRIO - Processo nº: 0000498-37.2018.8.06.0127".data = true ∧
     (extrair_info_pdf
        { nome := "doc.pdf".data, openExc := none,
          pages := [Except.ok (some
            "PODER JUDICIÁRIO - Processo nº: 0000498-37.2018.8.06.0127".data)],
          procExc := none }).texto_completo_limpo = [] ∧
     (extrair_info_pdf
        { nome := "doc.pdf".data, openExc := none,
          pages := [Except.ok (some
            "PODER JUDICIÁRIO - Processo nº: 0000498-37.2018.8.06.0127".data)],
          procExc := none }).numeroProcesso
       = some "0000498-37.2018.8.06.0127".data) := by
  have hp : src.pages.isEmpty = false := by simpa [List.isEmpty_iff] using h2
  exact ⟨by simp [extrair_info_pdf, h1, hp, h3], by decide, by decide, by decide⟩

/-- Witness for C7 at a concrete source. -/
theorem C7_resolver_unfiltered_witness :
    (extrair_info_pdf
      { nome := "00004983720188060127.pdf".data, openExc := none,
        pages := [Except.ok (some "Decisão sem rótulo.".data)],
        procExc := none }).numeroProcesso
      = some "0000498-37.2018.8.06.0127".data := by
  have h := C7_resolver_unfiltered
    { nome := "00004983720188060127.pdf".data, openExc := none,
      pages := [Except.ok (some "Decisão sem rótulo.".data)],
      procExc := none } rfl (List.cons_ne_nil _ _) rfl
  rw [h.1]; decide
